import Mathlib

/-!
Shallow embedding of the `check_transcripts_diploma` pipeline.

The Python sources embedded here are:
* `main.py` — verdict normalization, severity priorities, the overall-report
  merge `_update_overall`, and the three-signal pipeline `main`.
* `rescan/rescan_detector.py` — the quality/artifact score arithmetic and the
  interval classifier `build_rescan_json`.
* `revision/pdf_revision.py` — the pdfresurrect / date-comparison revision
  analysis, with exceptions modelled explicitly.
* `metadata/scan_validator.py`, `metadata/common_utils.py` — metadata
  extraction, blacklist lookup, and the scan-document validator.

Python floats are modelled as `ℚ` (every comparison and arithmetic step the
claims touch is exact on the values involved); machine strings as `String`;
exceptions as `Except`/explicit outcome types.
-/

namespace Diploma

/-! ## Python string primitives -/

/-- Characters stripped by Python's `str.strip()` (ASCII whitespace). -/
def isPySpace (c : Char) : Bool :=
  c = ' ' || c = '\t' || c = '\n' || c = '\x0d' || c = '\x0b' || c = '\x0c'

/-- Python `str.strip()` on a character list: drop whitespace at both ends. -/
def pyStripList (l : List Char) : List Char :=
  ((l.dropWhile isPySpace).reverse.dropWhile isPySpace).reverse

/-- Python `str.strip()`. -/
def pyStrip (s : String) : String := String.mk (pyStripList s.data)

/-- Python `str.lower()` (ASCII case mapping, as used on the repo's data). -/
def pyLower (s : String) : String := String.mk (s.data.map Char.toLower)

/-- Python `needle in hay` substring test. -/
def strContains (hay needle : String) : Bool :=
  decide (needle.data <:+: hay.data)

/-! ## `main.py` helpers: verdict normalization and severity merge -/

/-- Embedding of `main.py::_norm_verdict`: strip + lower, then map synonyms onto the five
canonical verdicts, defaulting to `"unknown"`. -/
def normVerdict (v : String) : String :=
  let v := pyLower (pyStrip v)
  if v = "valid" ∨ v = "ok" then "valid"
  else if v = "borderline" ∨ v = "suspect" ∨ v = "warning" ∨ v = "warn" then "suspect"
  else if v = "invalid" ∨ v = "invalide" then "invalid"
  else if v = "falsified" ∨ v = "forged" then "falsified"
  else "unknown"

/-- Embedding of `main.py::_priority`: falsified(3) > invalid(2) > suspect(1) > valid/unknown(0). -/
def priority (verdict : String) : Nat :=
  let v := normVerdict verdict
  if v = "falsified" then 3
  else if v = "invalid" then 2
  else if v = "suspect" then 1
  else 0

/-- The `overall` sub-dictionary of the report: `{verdict, reasons}`. -/
structure Overall where
  verdict : String
  reasons : List String
deriving DecidableEq, Repr

/-- Embedding of `main.py::_init_overall`. -/
def initOverall : Overall := ⟨"valid", []⟩

/-- Embedding of `main.py::_update_overall`: upgrade the verdict when the incoming one is
strictly more severe (storing its normalized form), and append the reason when
it is non-empty and the normalized verdict is problematic. -/
def updateOverall (o : Overall) (new_verdict reason : String) : Overall :=
  let o1 :=
    if priority new_verdict > priority o.verdict
    then { o with verdict := normVerdict new_verdict } else o
  let v_norm := normVerdict new_verdict
  if reason ≠ "" ∧ (v_norm = "suspect" ∨ v_norm = "invalid" ∨
      v_norm = "falsified" ∨ v_norm = "unknown")
  then { o1 with reasons := o1.reasons ++ [reason] }
  else o1

/-- A run of `_update_overall` calls: fold over the submitted
(verdict, reason) pairs. -/
def applyUpdates (o : Overall) (subs : List (String × String)) : Overall :=
  subs.foldl (fun acc p => updateOverall acc p.1 p.2) o

/-! ## `rescan/rescan_detector.py`: scores and interval classifier -/

/-- Python's round-half-to-even on a rational, as used by `round(x)` and
number formatting. -/
def roundHalfEven (q : ℚ) : ℤ :=
  let f := ⌊q⌋
  if q - f < 1/2 then f
  else if q - f > 1/2 then f + 1
  else if 2 ∣ f then f else f + 1

/-- Python `round(x, 1)`. -/
def pyRound1 (q : ℚ) : ℚ := (roundHalfEven (10 * q) : ℚ) / 10

/-- Python `f"{x:.0f}"`. -/
def fmt0 (q : ℚ) : String :=
  let n := roundHalfEven q
  (if n < 0 then "-" else "") ++ toString n.natAbs

/-- Python `f"{x:.1f}"`. -/
def fmt1 (q : ℚ) : String :=
  let n := roundHalfEven (10 * q)
  (if n < 0 then "-" else "") ++ toString (n.natAbs / 10) ++ "." ++ toString (n.natAbs % 10)

/-- Raw quality measurements of one image
(`RescanDetector.calculate_image_quality_metrics`). -/
structure QualityMetrics where
  laplacian_variance : ℚ
  entropy : ℚ
  noise_estimate : ℚ
  rms_contrast : ℚ
  mean_gradient_magnitude : ℚ
  high_frequency_content : ℚ
deriving DecidableEq, Repr

/-- Raw artifact measurements of one image
(`RescanDetector.detect_printing_artifacts`). -/
structure ArtifactMetrics where
  halftone_score : ℚ
  edge_irregularity : ℚ
  compression_artifacts : ℚ
  grid_pattern_score : ℚ
deriving DecidableEq, Repr

/-- Embedding of `RescanDetector.calculate_quality_score`. -/
def calculate_quality_score (m : QualityMetrics) : ℚ :=
  min (m.laplacian_variance / 1000) 1 * 25
    + m.entropy / 8 * 20
    + min (m.rms_contrast / 100) 1 * 20
    + max 0 (1 - m.noise_estimate / 50) * 20
    + min (m.high_frequency_content / 1000) 1 * 15

/-- Embedding of `RescanDetector.calculate_artifact_score`. -/
def calculate_artifact_score (a : ArtifactMetrics) : ℚ :=
  min (a.halftone_score / 10) 1 * 30
    + min a.edge_irregularity 1 * 25
    + min (a.compression_artifacts / 5) 1 * 25
    + min (a.grid_pattern_score * 1000) 1 * 20

/-! ### Interval classifier constants (`rescan_detector.py` module level) -/

def QUALITY_CORE_MIN : ℚ := 25.0
def QUALITY_CORE_MAX : ℚ := 42.5
def ART_CORE_MIN : ℚ := 65.0
def ART_CORE_MAX : ℚ := 75.0
def QUALITY_SUSPECT_MAX : ℚ := 56.0
def ART_SUSPECT_MAX : ℚ := 78.0

/-- The `rescan` sub-dictionary returned by `build_rescan_json`. -/
structure RescanZone where
  verdict : Bool
  status : String
  level : String
  message : String
deriving DecidableEq, Repr

/-- Full return value of `build_rescan_json`. -/
structure RescanJson where
  file : String
  qualite : ℚ
  artefact : ℚ
  rescan : RescanZone
deriving DecidableEq, Repr

/-- The test `quality ∈ [QUALITY_CORE_MIN, QUALITY_CORE_MAX]` (`in_q_core`). -/
def in_q_core (qualite : ℚ) : Prop :=
  QUALITY_CORE_MIN ≤ qualite ∧ qualite ≤ QUALITY_CORE_MAX

/-- The test `artifact ∈ [ART_CORE_MIN, ART_CORE_MAX]` (`in_a_core`). -/
def in_a_core (artefact : ℚ) : Prop :=
  ART_CORE_MIN ≤ artefact ∧ artefact ≤ ART_CORE_MAX

instance (q : ℚ) : Decidable (in_q_core q) := by unfold in_q_core; infer_instance
instance (a : ℚ) : Decidable (in_a_core a) := by unfold in_a_core; infer_instance

/-- Suspect clause (a): artifacts in core band, quality in `(42.5, 56.0)`. -/
def suspectA (qualite artefact : ℚ) : Prop :=
  in_a_core artefact ∧ QUALITY_CORE_MAX < qualite ∧ qualite < QUALITY_SUSPECT_MAX

/-- Suspect clause (b): quality in core band, artifacts in `(75.0, 78.0]`. -/
def suspectB (qualite artefact : ℚ) : Prop :=
  in_q_core qualite ∧ ART_CORE_MAX < artefact ∧ artefact ≤ ART_SUSPECT_MAX

/-- Suspect clause (c): quality in `(42.5, 44.0]`, artifacts in core band. -/
def suspectC (qualite artefact : ℚ) : Prop :=
  (QUALITY_CORE_MAX < qualite ∧ qualite ≤ 44.0) ∧ in_a_core artefact

instance (q a : ℚ) : Decidable (suspectA q a) := by unfold suspectA; infer_instance
instance (q a : ℚ) : Decidable (suspectB q a) := by unfold suspectB; infer_instance
instance (q a : ℚ) : Decidable (suspectC q a) := by unfold suspectC; infer_instance

/-- Message of the `core` branch of `build_rescan_json`. -/
def coreMessage (qualite artefact : ℚ) : String :=
  "qualité " ++ fmt1 qualite ++ " dans [" ++ fmt0 QUALITY_CORE_MIN ++ "," ++
    fmt0 QUALITY_CORE_MAX ++ "] ET artefacts " ++ fmt1 artefact ++ " dans [" ++
    fmt0 ART_CORE_MIN ++ "," ++ fmt0 ART_CORE_MAX ++ "] : re-scan détecté (document falsifié)"

/-- Message of suspect clause (a). -/
def suspectAMessage : String :=
  "artefacts dans l'intervalle et qualité légèrement élevée : re-scan suspect"

/-- Message of suspect clause (b). -/
def suspectBMessage : String :=
  "qualité dans l'intervalle et artefacts légèrement élevés : re-scan suspect"

/-- Message of the remaining suspect branch. -/
def suspectCMessage : String :=
  "proche des seuils re-scan : re-scan suspect"

/-- Message of the `none` branch. -/
def noneMessage (qualite artefact : ℚ) : String :=
  "qualité " ++ fmt1 qualite ++ " / artefacts " ++ fmt1 artefact ++
    " hors zones re-scan : document conforme"

/-- Embedding of `rescan_detector.py::build_rescan_json`: the interval classifier. -/
def build_rescan_json (file_path : String) (qualite artefact : ℚ) : RescanJson :=
  let zone : RescanZone :=
    if in_q_core qualite ∧ in_a_core artefact then
      ⟨true, "invalid", "core", coreMessage qualite artefact⟩
    else if suspectA qualite artefact ∨ suspectB qualite artefact ∨
        suspectC qualite artefact then
      ⟨true, "invalid", "suspect",
        if suspectA qualite artefact then suspectAMessage
        else if suspectB qualite artefact then suspectBMessage
        else suspectCMessage⟩
    else
      ⟨false, "valid", "none", noneMessage qualite artefact⟩
  ⟨file_path, pyRound1 qualite, pyRound1 artefact, zone⟩

/-- The zone→verdict mapping of `main.py` (lines 146–151). -/
def levelToVerdict (level : String) : String :=
  if level = "core" then "falsified"
  else if level = "suspect" then "suspect"
  else "valid"

/-! ## Python exceptions and external-world outcomes -/

/-- A Python exception value: class name and `str(e)` message. -/
structure PyExc where
  name : String
  msg : String
deriving DecidableEq, Repr

/-- Python `str(e)`. -/
def pyStr (e : PyExc) : String := e.msg

/-- Python `repr(e)` (the `{e!r}` formatting used in `main.py`). -/
def pyRepr (e : PyExc) : String := e.name ++ "('" ++ e.msg ++ "')"

/-- Outcome of running a piece of Python code: a value, or a raised exception. -/
inductive PyResult (α : Type) where
  | ok (a : α)
  | exc (e : PyExc)
deriving DecidableEq, Repr

/-! ## `revision/pdf_revision.py` -/

/-- The result dictionary produced by the revision analyses:
`{ok, rewrites, method, message}`. -/
structure RevDict where
  ok : Bool
  rewrites : Nat
  method : String
  message : String
deriving DecidableEq, Repr

/-- Exceptions that can escape `analyze_with_pdfresurrect`: the dedicated
`PdfResurrectNotFound`, or an ordinary exception. -/
inductive RevError where
  | notFound (msg : String)
  | exc (e : PyExc)
deriving DecidableEq, Repr

/-- External-world inputs of `analyze_with_pdfresurrect`: whether the CLI tool
is on the PATH, whether the file exists, and the subprocess call's outcome
(stdout text, or a `CalledProcessError` description). -/
structure ResurrectEnv where
  toolAvailable : Bool
  fileExists : Bool
  callOutcome : PyResult String
deriving DecidableEq, Repr

/-- Value of the digit characters `ds` read as a decimal number. -/
def digitsVal (ds : List Char) : Nat :=
  ds.foldl (fun acc c => acc * 10 + (c.toNat - '0'.toNat)) 0

/-- The trailing integer of `s` (the `re.search(r"(\d+)\s*$", s)` capture):
digits at the end of the string, ignoring trailing whitespace. -/
def trailingNat (s : String) : Option Nat :=
  let rev := s.data.reverse.dropWhile isPySpace
  let ds := rev.takeWhile Char.isDigit
  if ds.isEmpty then none else some (digitsVal ds.reverse)

/-- Embedding of `analyze_with_pdfresurrect`: `none` means "no rewrite detected"
(Python `None`); `some` carries the rewrite dictionary. -/
def analyze_with_pdfresurrect (pdf_path : String) (env : ResurrectEnv) :
    Except RevError (Option RevDict) :=
  if ¬env.toolAvailable then
    .error (.notFound
      "pdfresurrect introuvable dans le PATH. Installe-le (ex: sudo apt-get install pdfresurrect).")
  else if ¬env.fileExists then
    .error (.exc ⟨"FileNotFoundError", "Le fichier " ++ pdf_path ++ " n'existe pas"⟩)
  else
    match env.callOutcome with
    | .exc e =>
        .error (.exc ⟨"RuntimeError",
          "Erreur lors de l'exécution de pdfresurrect: " ++ pyStr e⟩)
    | .ok out =>
        let versions := max 1 ((trailingNat (pyStrip out)).getD 1)
        let rewrites := versions - 1
        if rewrites > 0 then
          let s := if rewrites > 1 then "s" else ""
          .ok (some ⟨false, rewrites, "pdfresurrect",
            toString rewrites ++ " réécriture" ++ s ++ " détectée" ++ s ++ " (pdfresurrect)."⟩)
        else .ok none

/-- External-world inputs of `analyze_with_dates`: file existence, the
`os.stat` outcome (ctime, mtime as rationals), PyPDF2 availability, whether
the inner metadata read succeeded, and the `/CreationDate` / `/ModDate`
fields when present. -/
structure DatesEnv where
  fileExists : Bool
  statOutcome : PyResult (ℚ × ℚ)
  pypdf2Available : Bool
  readOk : Bool
  creationDate : Option String
  modDate : Option String
deriving DecidableEq, Repr

/-- The "dates equal" result dictionary of `analyze_with_dates`. -/
def datesValidDict (method : String) : RevDict :=
  ⟨true, 0, "dates_" ++ method,
    "PDF non falsifié (dates de création/modification identiques)."⟩

/-- The "dates differ" result dictionary of `analyze_with_dates`
(`rewrites = 1` assumed). -/
def datesRewriteDict (method : String) : RevDict :=
  ⟨false, 1, "dates_" ++ method,
    "Réécriture détectée (dates de création/modification différentes)."⟩

/-- Python truthiness of an optional string: `None` and `""` are falsy. -/
def pyTruthy (x : Option String) : Bool :=
  match x with
  | none => false
  | some s => s != ""

/-- Embedding of `analyze_with_dates`: a raised `FileNotFoundError` is the only exception
that escapes (it is raised before the `try`); everything inside the `try` is
caught and folded into the `dates_error` dictionary. The PDF-metadata
comparison is used only when both date fields are truthy (`if creation_date
and mod_date:`). -/
def analyze_with_dates (pdf_path : String) (env : DatesEnv) :
    Except PyExc RevDict :=
  if ¬env.fileExists then
    .error ⟨"FileNotFoundError", "Le fichier " ++ pdf_path ++ " n'existe pas"⟩
  else
    match env.statOutcome with
    | .exc e =>
        .ok ⟨false, 0, "dates_error",
          "Erreur lors de l'analyse des dates: " ++ pyStr e⟩
    | .ok (file_ctime, file_mtime) =>
        if env.pypdf2Available && env.readOk &&
            pyTruthy env.creationDate && pyTruthy env.modDate then
          if env.creationDate.getD "" = env.modDate.getD "" then
            .ok (datesValidDict "pdf_metadata")
          else .ok (datesRewriteDict "pdf_metadata")
        else
          if |file_ctime - file_mtime| ≤ 1 then .ok (datesValidDict "filesystem")
          else .ok (datesRewriteDict "filesystem")

/-- The generic error dictionary of `analyze_pdf_complete`'s outer handler. -/
def revErrorDict (e : PyExc) : RevDict :=
  ⟨false, 0, "error", "Erreur lors de l'analyse: " ++ pyStr e⟩

/-- Embedding of `analyze_pdf_complete`: pdfresurrect first; falls back to date comparison
when the tool found nothing or is missing. A `FileNotFoundError` raised by the
date fallback inside the `except PdfResurrectNotFound` handler propagates
(handlers of the same `try` do not catch it); every other exception is caught
by the outer `except Exception`. -/
def analyze_pdf_complete (pdf_path : String) (re : ResurrectEnv) (de : DatesEnv) :
    Except RevError RevDict :=
  match analyze_with_pdfresurrect pdf_path re with
  | .ok (some r) => .ok r
  | .ok none =>
      match analyze_with_dates pdf_path de with
      | .ok r => .ok r
      | .error e => .ok (revErrorDict e)
  | .error (.notFound _) =>
      match analyze_with_dates pdf_path de with
      | .ok r => .ok r
      | .error e => .error (.exc e)
  | .error (.exc e) => .ok (revErrorDict e)

/-! ## `metadata/common_utils.py` and `metadata/scan_validator.py` -/

/-- Python `str.strip("/")` on the key names of the PyPDF2 metadata dictionary. -/
def stripSlashes (s : String) : String :=
  String.mk (((s.data.dropWhile (· = '/')).reverse.dropWhile (· = '/')).reverse)

/-- Python `dict.get`: first binding of the key in the association list. -/
def pyGet (m : List (String × String)) (k : String) : Option String :=
  (m.find? (fun p => p.1 = k)).map Prod.snd

/-- Python `dict[k] = v`: replace the binding in place, else append. -/
def pyDictSet (m : List (String × String)) (k v : String) : List (String × String) :=
  if (m.find? (fun p => p.1 = k)).isSome then
    m.map (fun p => if p.1 = k then (k, v) else p)
  else m ++ [(k, v)]

/-- Build a Python dict from a sequence of assignments (later keys win). -/
def pyDictOf (entries : List (String × String)) : List (String × String) :=
  entries.foldl (fun acc p => pyDictSet acc p.1 p.2) []

/-- Python `a or b` over optional strings: `b` when `a` is `None` or empty. -/
def pyOrStr (a b : Option String) : Option String :=
  match a with
  | some s => if s = "" then b else some s
  | none => b

/-- Embedding of `common_utils.py::SCAN_BLACKLIST`. -/
def SCAN_BLACKLIST : List String :=
  ["photoshop", "adobe photoshop", "gimp", "affinity photo",
   "illustrator", "adobe illustrator", "corel", "paintshop", "inkscape",
   "paint", "paint 3d", "photopea", "pixlr", "krita", "canva", "figma",
   "sketch", "procreate", "clip studio paint", "sai", "artrage",
   "adobe acrobat 25.1 image conversion plug-in"]

/-- Embedding of `common_utils.py::NATIVE_BLACKLIST`. -/
def NATIVE_BLACKLIST : List String :=
  ["photoshop", "adobe photoshop", "gimp", "affinity photo",
   "illustrator", "adobe illustrator", "corel", "paintshop", "inkscape",
   "paint", "paint 3d", "photopea", "pixlr", "krita", "canva", "figma",
   "adobe scan", "camscanner", "microsoft lens", "office lens",
   "scanbot", "genius scan", "turboscan", "notebloc", "tap scanner",
   "scanner", "scanned", "scanné",
   "sketch", "procreate", "clip studio paint", "sai", "artrage"]

/-- External-world inputs of metadata extraction: availability of the two
backends and the raw metadata mapping (or exception) each produced. -/
structure MdEnv where
  pypdfAvailable : Bool
  pypdfOutcome : PyResult (List (String × String))
  fitzAvailable : Bool
  fitzOutcome : PyResult (List (String × String))
deriving DecidableEq, Repr

/-- Embedding of `common_utils.py::extract_metadata_pypdf`: backend missing or raising
yields `{}`; keys are stripped of `/` and lower-cased. -/
def extract_metadata_pypdf (env : MdEnv) : List (String × String) :=
  if ¬env.pypdfAvailable then []
  else
    match env.pypdfOutcome with
    | .exc _ => []
    | .ok info => pyDictOf (info.map (fun p => (pyLower (stripSlashes p.1), p.2)))

/-- Embedding of `common_utils.py::extract_metadata_fitz`: backend missing or raising
yields `{}`; keys are lower-cased. -/
def extract_metadata_fitz (env : MdEnv) : List (String × String) :=
  if ¬env.fitzAvailable then []
  else
    match env.fitzOutcome with
    | .exc _ => []
    | .ok info => pyDictOf (info.map (fun p => (pyLower p.1, p.2)))

/-- Embedding of `common_utils.py::merge_metadata`: keep `a`'s non-empty values, fill the
rest from `b`. -/
def merge_metadata (a b : List (String × String)) : List (String × String) :=
  b.foldl
    (fun out kv =>
      if pyGet out kv.1 = none ∨ pyGet out kv.1 = some "" then
        pyDictSet out kv.1 kv.2
      else out)
    a

/-- Embedding of `common_utils.py::lower_or_empty`. -/
def lower_or_empty (x : Option String) : String :=
  pyLower (pyStrip (x.getD ""))

/-- The normalized principal metadata fields returned by
`extract_all_metadata`. -/
structure MetaFields where
  producer : String
  creator : String
  application : String
  title : String
  author : String
  moddate : String
deriving DecidableEq, Repr

/-- Embedding of `common_utils.py::extract_all_metadata`. -/
def extract_all_metadata (env : MdEnv) : MetaFields :=
  let meta_all := merge_metadata (extract_metadata_pypdf env) (extract_metadata_fitz env)
  { producer := lower_or_empty (pyGet meta_all "producer")
    creator := lower_or_empty (pyGet meta_all "creator")
    application := lower_or_empty (pyOrStr (pyGet meta_all "application") (pyGet meta_all "app"))
    title := lower_or_empty (pyGet meta_all "title")
    author := lower_or_empty (pyGet meta_all "author")
    moddate := lower_or_empty (pyOrStr (pyGet meta_all "moddate")
      (pyOrStr (pyGet meta_all "modified") (pyGet meta_all "mod_date"))) }

/-- Embedding of `common_utils.py::is_in_blacklist`: first blacklist entry that is a
substring of the lower-cased `"{creator} {producer}"`. -/
def is_in_blacklist (creator producer : String) (blacklist : List String) :
    Bool × String :=
  let combined := pyLower (creator ++ " " ++ producer)
  match blacklist.find? (fun item => strContains combined (pyLower item)) with
  | some item => (true, item)
  | none => (false, "")

/-- The result dictionary of `create_result`:
`{ok, message, verdict, file, confidence}`. -/
structure MdDict where
  ok : Bool
  message : String
  verdict : String
  file : String
  confidence : String
deriving DecidableEq, Repr

/-- Embedding of `scan_validator.py::validate_scan_document`. -/
def validate_scan_document (pdf_path : String) (env : MdEnv) : MdDict :=
  let metadata := extract_all_metadata env
  let r := is_in_blacklist metadata.creator metadata.producer SCAN_BLACKLIST
  if r.1 then
    ⟨false, "Document falsifié : application interdite détectée (" ++ r.2 ++ ")",
      "falsified", pdf_path, "high"⟩
  else
    ⟨true, "Document valide : aucune application suspecte détectée",
      "valid", pdf_path, "high"⟩

/-! ## `main.py::main`: the verification pipeline -/

/-- A `{verdict, message}` entry of the report. -/
structure SigEntry where
  verdict : String
  message : String
deriving DecidableEq, Repr

/-- The `scores` sub-dictionary of the rescan criteria entry. -/
structure CriteriaScores where
  quality_avg : ℚ
  artifact_avg : ℚ
  quality_interval_core : ℚ × ℚ
  artifact_interval_core : ℚ × ℚ
deriving DecidableEq, Repr

/-- The `criteria.rescan` entry (`scores` present only on the success path). -/
structure RescanEntry where
  verdict : String
  message : String
  scores : Option CriteriaScores
deriving DecidableEq, Repr

/-- The report dictionary built in `main` (lines 70–76). `none` sub-entries
model the initial empty dictionaries `{}`. -/
structure Report where
  documentPath : String
  documentType : String
  revision : Option SigEntry
  metadata : Option SigEntry
  criteriaRescan : Option RescanEntry
  overall : Overall
deriving DecidableEq, Repr

/-- The top-level keys serialized by `json.dumps(report)`: they are created by
the dictionary literal at `main.py` lines 70–76 and never deleted, on every
exit path. -/
def reportJsonKeys (_ : Report) : List String :=
  ["document", "revision", "metadata", "criteria", "overall"]

/-- Outcome of `RescanDetector.analyze_pdf` plus the surrounding `try`:
the `{"error": ...}` dictionary, the averaged scores, or an exception. -/
inductive RescanOutcome where
  | errorKey (msg : String)
  | scores (q a : ℚ)
  | exc (e : PyExc)
deriving DecidableEq, Repr

/-- All external-world inputs of one `main` run. -/
structure MainEnv where
  resEnv : ResurrectEnv
  datesEnv : DatesEnv
  mdOutcome : PyResult MdDict
  rescanOutcome : RescanOutcome
deriving DecidableEq, Repr

/-- Result of a `main` run: the emitted report, the process exit code, and
which of the later signals were reached. -/
structure RunResult where
  report : Report
  exitCode : Nat
  ranMetadata : Bool
  ranRescan : Bool
deriving DecidableEq, Repr

/-- Signal 3 of `main` (lines 130–178): the rescan block. -/
def runRescanStep (pdf_path : String) (env : MainEnv) (rep : Report) : RunResult :=
  match env.rescanOutcome with
  | .errorKey m =>
      let msg := if m = "" then "Erreur rescan" else m
      let rep := { rep with criteriaRescan := some ⟨"unknown", msg, none⟩ }
      ⟨{ rep with overall := updateOverall rep.overall "unknown" msg }, 0, true, true⟩
  | .scores qual art =>
      let rz := build_rescan_json pdf_path qual art
      let level := rz.rescan.level
      let message := rz.rescan.message
      let vtxt := levelToVerdict level
      let rep := { rep with criteriaRescan := some ⟨vtxt, message,
        some ⟨pyRound1 qual, pyRound1 art,
          (QUALITY_CORE_MIN, QUALITY_CORE_MAX), (ART_CORE_MIN, ART_CORE_MAX)⟩⟩ }
      if level = "core" then
        ⟨{ rep with overall := updateOverall rep.overall "falsified" message }, 0, true, true⟩
      else if level = "suspect" then
        ⟨{ rep with overall := updateOverall rep.overall "suspect" message }, 0, true, true⟩
      else
        ⟨{ rep with overall := updateOverall rep.overall "valid" message }, 0, true, true⟩
  | .exc e =>
      let msg := "Erreur rescan: " ++ e.name ++ ": " ++ e.msg
      let rep := { rep with criteriaRescan := some ⟨"unknown", msg, none⟩ }
      ⟨{ rep with overall := updateOverall rep.overall "unknown" msg }, 0, true, true⟩

/-- Signal 2 of `main` (lines 106–128): the metadata block, emitting
immediately on `falsified`/`invalid` or on an extraction exception. -/
def runMetadataStep (pdf_path : String) (env : MainEnv) (rep : Report) : RunResult :=
  match env.mdOutcome with
  | .ok md =>
      let v := normVerdict md.verdict
      let msg := md.message
      let rep := { rep with metadata := some ⟨v, msg⟩ }
      let rep := { rep with overall := updateOverall rep.overall v msg }
      if v = "falsified" ∨ v = "invalid" then ⟨rep, 0, true, false⟩
      else runRescanStep pdf_path env rep
  | .exc e =>
      let msg := "Erreur analyse métadonnées: " ++ pyRepr e
      let rep := { rep with metadata := some ⟨"invalid", msg⟩ }
      ⟨{ rep with overall := updateOverall rep.overall "invalid" msg }, 0, true, false⟩

/-- Embedding of `main.py::main` on a well-formed invocation: runs the three signals in
order with the early exits of the source. -/
def runMain (pdf_path : String) (env : MainEnv) : RunResult :=
  let report0 : Report := ⟨pdf_path, "scan", none, none, none, initOverall⟩
  match analyze_pdf_complete pdf_path env.resEnv env.datesEnv with
  | .ok r =>
      if r.rewrites > 0 then
        let msg := r.message
        let rep := { report0 with revision := some ⟨"falsified", msg⟩ }
        ⟨{ rep with overall := updateOverall rep.overall "falsified" msg }, 0, false, false⟩
      else
        let msg := r.message
        let rep := { report0 with revision := some ⟨"valid", msg⟩ }
        runMetadataStep pdf_path env
          { rep with overall := updateOverall rep.overall "valid" msg }
  | .error (.notFound _) =>
      let msg := "pdfresurrect introuvable"
      let rep := { report0 with revision := some ⟨"unknown", msg⟩ }
      runMetadataStep pdf_path env
        { rep with overall := updateOverall rep.overall "unknown" msg }
  | .error (.exc e) =>
      let msg := "Erreur analyse révisions: " ++ pyRepr e
      let rep := { report0 with revision := some ⟨"invalid", msg⟩ }
      runMetadataStep pdf_path env
        { rep with overall := updateOverall rep.overall "invalid" msg }

/-- Spec-side reading of the reasons rule (claim C8, for comparison with the
code): the messages submitted with a non-valid normalized verdict, in
submission order. -/
def specNonValidMessages (subs : List (String × String)) : List String :=
  (subs.filter (fun p => normVerdict p.1 != "valid")).map Prod.snd

/-! ## Character and string lemmas -/

theorem char_toNat_ofNat {n : Nat} (h : n.isValidChar) : (Char.ofNat n).toNat = n := by
  simp [Char.ofNat, h, Char.ofNatAux, Char.toNat, UInt32.toNat]

theorem char_eq_iff_toNat {c d : Char} : c = d ↔ c.toNat = d.toNat := by
  constructor
  · intro h; rw [h]
  · intro h
    exact Char.eq_of_val_eq (UInt32.toNat.inj h)

theorem toLower_idem (c : Char) : c.toLower.toLower = c.toLower := by
  unfold Char.toLower
  by_cases h : c.toNat ≥ 65 ∧ c.toNat ≤ 90
  · rw [if_pos h]
    have hv : (c.toNat + 32).isValidChar := Or.inl (by omega)
    rw [if_neg (by rw [char_toNat_ofNat hv]; omega)]
  · rw [if_neg h, if_neg h]

theorem isPySpace_iff (c : Char) :
    isPySpace c = true ↔
      c.toNat = 32 ∨ c.toNat = 9 ∨ c.toNat = 10 ∨ c.toNat = 13 ∨
      c.toNat = 11 ∨ c.toNat = 12 := by
  have e1 : (' ' : Char).toNat = 32 := rfl
  have e2 : ('\t' : Char).toNat = 9 := rfl
  have e3 : ('\n' : Char).toNat = 10 := rfl
  have e4 : ('\x0d' : Char).toNat = 13 := rfl
  have e5 : ('\x0b' : Char).toNat = 11 := rfl
  have e6 : ('\x0c' : Char).toNat = 12 := rfl
  unfold isPySpace
  simp only [Bool.or_eq_true, decide_eq_true_eq, char_eq_iff_toNat, e1, e2, e3, e4, e5, e6]
  tauto

theorem isPySpace_toLower (c : Char) : isPySpace c.toLower = isPySpace c := by
  unfold Char.toLower
  by_cases h : c.toNat ≥ 65 ∧ c.toNat ≤ 90
  · rw [if_pos h]
    have hv : (c.toNat + 32).isValidChar := Or.inl (by omega)
    have h1 : (Char.ofNat (c.toNat + 32)).toNat = c.toNat + 32 := char_toNat_ofNat hv
    have hL : isPySpace (Char.ofNat (c.toNat + 32)) = false := by
      rw [Bool.eq_false_iff]
      intro hc
      rw [isPySpace_iff, h1] at hc
      omega
    have hR : isPySpace c = false := by
      rw [Bool.eq_false_iff]
      intro hc
      rw [isPySpace_iff] at hc
      omega
    rw [hL, hR]
  · rw [if_neg h]

theorem pyStripList_map_toLower (l : List Char) :
    pyStripList (l.map Char.toLower) = (pyStripList l).map Char.toLower := by
  have hfun : (isPySpace ∘ Char.toLower) = isPySpace := funext isPySpace_toLower
  unfold pyStripList
  rw [List.dropWhile_map, hfun, ← List.map_reverse, List.dropWhile_map, hfun, ← List.map_reverse]

theorem pyStrip_pyLower (s : String) : pyStrip (pyLower s) = pyLower (pyStrip s) := by
  unfold pyStrip pyLower
  rw [pyStripList_map_toLower]

theorem pyLower_idem (s : String) : pyLower (pyLower s) = pyLower s := by
  have hfun : (Char.toLower ∘ Char.toLower) = Char.toLower := funext toLower_idem
  unfold pyLower
  show String.mk (List.map Char.toLower (List.map Char.toLower s.data)) = _
  rw [List.map_map, hfun]

/-! ## Normalization lemmas -/

theorem normVerdict_mem (v : String) :
    normVerdict v = "valid" ∨ normVerdict v = "suspect" ∨ normVerdict v = "invalid" ∨
      normVerdict v = "falsified" ∨ normVerdict v = "unknown" := by
  simp only [normVerdict]
  split_ifs <;> simp

theorem normVerdict_idem (v : String) :
    normVerdict (normVerdict v) = normVerdict v := by
  rcases normVerdict_mem v with h | h | h | h | h <;> rw [h] <;> decide

theorem normVerdict_pyLower (v : String) :
    normVerdict (pyLower v) = normVerdict v := by
  unfold normVerdict
  rw [pyStrip_pyLower, pyLower_idem]

theorem priority_normVerdict (v : String) :
    priority (normVerdict v) = priority v := by
  unfold priority
  rw [normVerdict_idem]

theorem normVerdict_ne_valid_iff (v : String) :
    (normVerdict v = "suspect" ∨ normVerdict v = "invalid" ∨
      normVerdict v = "falsified" ∨ normVerdict v = "unknown") ↔
    normVerdict v ≠ "valid" := by
  rcases normVerdict_mem v with h | h | h | h | h <;> rw [h] <;> decide

/-! ## Overall-report lemmas -/

theorem updateOverall_verdict (o : Overall) (v r : String) :
    (updateOverall o v r).verdict =
      if priority v > priority o.verdict then normVerdict v else o.verdict := by
  simp only [updateOverall]
  split_ifs <;> rfl

theorem updateOverall_reasons (o : Overall) (v r : String) :
    (updateOverall o v r).reasons =
      if r ≠ "" ∧ normVerdict v ≠ "valid" then o.reasons ++ [r] else o.reasons := by
  have hiff := normVerdict_ne_valid_iff v
  simp only [updateOverall]
  rcases Decidable.em (r ≠ "" ∧ (normVerdict v = "suspect" ∨ normVerdict v = "invalid" ∨
      normVerdict v = "falsified" ∨ normVerdict v = "unknown")) with hc | hc
  · rw [if_pos hc,
      if_pos (show r ≠ "" ∧ normVerdict v ≠ "valid" from ⟨hc.1, hiff.mp hc.2⟩)]
    split_ifs <;> rfl
  · rw [if_neg hc,
      if_neg (show ¬(r ≠ "" ∧ normVerdict v ≠ "valid") from fun h => hc ⟨h.1, hiff.mpr h.2⟩)]
    split_ifs <;> rfl

theorem updateOverall_priority (o : Overall) (v r : String) :
    priority (updateOverall o v r).verdict = max (priority o.verdict) (priority v) := by
  rw [updateOverall_verdict]
  split_ifs with h
  · rw [priority_normVerdict]
    omega
  · omega

theorem applyUpdates_priority (o : Overall) (subs : List (String × String)) :
    priority (applyUpdates o subs).verdict =
      (subs.map (fun p => priority p.1)).foldl max (priority o.verdict) := by
  induction subs generalizing o with
  | nil => rfl
  | cons hd tl ih =>
      show priority (applyUpdates (updateOverall o hd.1 hd.2) tl).verdict = _
      rw [ih, List.map_cons, List.foldl_cons, updateOverall_priority]

theorem applyUpdates_reasons (o : Overall) (subs : List (String × String)) :
    (applyUpdates o subs).reasons =
      o.reasons ++
        ((subs.filter (fun p => p.2 != "" && normVerdict p.1 != "valid")).map Prod.snd) := by
  induction subs generalizing o with
  | nil => simp [applyUpdates]
  | cons hd tl ih =>
      show (applyUpdates (updateOverall o hd.1 hd.2) tl).reasons = _
      rw [ih, updateOverall_reasons]
      by_cases h : hd.2 ≠ "" ∧ normVerdict hd.1 ≠ "valid"
      · rw [if_pos h, List.filter_cons_of_pos (by simpa using h)]
        simp
      · rw [if_neg h, List.filter_cons_of_neg (by simpa using h)]

/-! ## Pipeline step lemmas -/

theorem runMain_rewrites_pos (path : String) (env : MainEnv) (d : RevDict)
    (h : analyze_pdf_complete path env.resEnv env.datesEnv = .ok d)
    (hr : 0 < d.rewrites) :
    runMain path env =
      ⟨⟨path, "scan", some ⟨"falsified", d.message⟩, none, none,
        updateOverall initOverall "falsified" d.message⟩, 0, false, false⟩ := by
  unfold runMain
  rw [h]
  exact if_pos hr

theorem runMain_rewrites_zero (path : String) (env : MainEnv) (d : RevDict)
    (h : analyze_pdf_complete path env.resEnv env.datesEnv = .ok d)
    (hr : d.rewrites = 0) :
    runMain path env =
      runMetadataStep path env
        ⟨path, "scan", some ⟨"valid", d.message⟩, none, none,
          updateOverall initOverall "valid" d.message⟩ := by
  unfold runMain
  rw [h]
  exact if_neg (by omega)

theorem runMetadataStep_exc (path : String) (env : MainEnv) (rep : Report)
    (e : PyExc) (h : env.mdOutcome = .exc e) :
    runMetadataStep path env rep =
      ⟨{ rep with
          metadata := some ⟨"invalid", "Erreur analyse métadonnées: " ++ pyRepr e⟩,
          overall := updateOverall rep.overall "invalid"
            ("Erreur analyse métadonnées: " ++ pyRepr e) }, 0, true, false⟩ := by
  unfold runMetadataStep
  rw [h]

theorem runMetadataStep_ok_stop (path : String) (env : MainEnv) (rep : Report)
    (md : MdDict) (h : env.mdOutcome = .ok md)
    (hv : normVerdict md.verdict = "falsified" ∨ normVerdict md.verdict = "invalid") :
    runMetadataStep path env rep =
      ⟨{ rep with
          metadata := some ⟨normVerdict md.verdict, md.message⟩,
          overall := updateOverall rep.overall (normVerdict md.verdict) md.message },
        0, true, false⟩ := by
  unfold runMetadataStep
  rw [h]
  exact if_pos hv

theorem runMetadataStep_ok_go (path : String) (env : MainEnv) (rep : Report)
    (md : MdDict) (h : env.mdOutcome = .ok md)
    (hv : ¬(normVerdict md.verdict = "falsified" ∨ normVerdict md.verdict = "invalid")) :
    runMetadataStep path env rep =
      runRescanStep path env
        { rep with
          metadata := some ⟨normVerdict md.verdict, md.message⟩,
          overall := updateOverall rep.overall (normVerdict md.verdict) md.message } := by
  unfold runMetadataStep
  rw [h]
  exact if_neg hv

theorem runRescanStep_revision (path : String) (env : MainEnv) (rep : Report) :
    (runRescanStep path env rep).report.revision = rep.revision := by
  cases h : env.rescanOutcome <;> simp only [runRescanStep, h] <;> split_ifs <;> rfl

theorem runRescanStep_metadata (path : String) (env : MainEnv) (rep : Report) :
    (runRescanStep path env rep).report.metadata = rep.metadata := by
  cases h : env.rescanOutcome <;> simp only [runRescanStep, h] <;> split_ifs <;> rfl

theorem runRescanStep_ranRescan (path : String) (env : MainEnv) (rep : Report) :
    (runRescanStep path env rep).ranRescan = true := by
  cases h : env.rescanOutcome <;> simp only [runRescanStep, h] <;> split_ifs <;> rfl

theorem runMetadataStep_revision (path : String) (env : MainEnv) (rep : Report) :
    (runMetadataStep path env rep).report.revision = rep.revision := by
  cases h : env.mdOutcome with
  | ok md =>
      by_cases hv : normVerdict md.verdict = "falsified" ∨ normVerdict md.verdict = "invalid"
      · rw [runMetadataStep_ok_stop path env rep md h hv]
      · rw [runMetadataStep_ok_go path env rep md h hv, runRescanStep_revision]
  | exc e => rw [runMetadataStep_exc path env rep e h]

theorem build_rescan_json_rescan (fp : String) (q a : ℚ) :
    (build_rescan_json fp q a).rescan =
      (if in_q_core q ∧ in_a_core a then
        ⟨true, "invalid", "core", coreMessage q a⟩
      else if suspectA q a ∨ suspectB q a ∨ suspectC q a then
        ⟨true, "invalid", "suspect",
          if suspectA q a then suspectAMessage
          else if suspectB q a then suspectBMessage
          else suspectCMessage⟩
      else ⟨false, "valid", "none", noneMessage q a⟩ : RescanZone) := rfl

/-! ## Claim C1: the interval classifier -/

/-- C1: the classifier returns `core` iff quality ∈ [25, 42.5] and artifact ∈
[65, 75] (inclusive); otherwise `suspect` iff clause (a), (b) or (c) holds;
otherwise `none`. The clauses are evaluated in order core, (a), (b), (c) and
the first match fixes the message; `main.py` maps core→falsified,
suspect→suspect, none→valid. -/
theorem interval_classifier_zones (fp : String) (q a : ℚ) :
    ((build_rescan_json fp q a).rescan.level = "core" ↔
      ((25.0 ≤ q ∧ q ≤ 42.5) ∧ (65.0 ≤ a ∧ a ≤ 75.0))) ∧
    ((build_rescan_json fp q a).rescan.level = "suspect" ↔
      (¬((25.0 ≤ q ∧ q ≤ 42.5) ∧ (65.0 ≤ a ∧ a ≤ 75.0)) ∧
        (((65.0 ≤ a ∧ a ≤ 75.0) ∧ 42.5 < q ∧ q < 56.0) ∨
          ((25.0 ≤ q ∧ q ≤ 42.5) ∧ 75.0 < a ∧ a ≤ 78.0) ∨
          ((42.5 < q ∧ q ≤ 44.0) ∧ (65.0 ≤ a ∧ a ≤ 75.0))))) ∧
    ((build_rescan_json fp q a).rescan.level = "none" ↔
      (¬((25.0 ≤ q ∧ q ≤ 42.5) ∧ (65.0 ≤ a ∧ a ≤ 75.0)) ∧
        ¬(((65.0 ≤ a ∧ a ≤ 75.0) ∧ 42.5 < q ∧ q < 56.0) ∨
          ((25.0 ≤ q ∧ q ≤ 42.5) ∧ 75.0 < a ∧ a ≤ 78.0) ∨
          ((42.5 < q ∧ q ≤ 44.0) ∧ (65.0 ≤ a ∧ a ≤ 75.0))))) ∧
    ((build_rescan_json fp q a).rescan.message =
      (if (25.0 ≤ q ∧ q ≤ 42.5) ∧ (65.0 ≤ a ∧ a ≤ 75.0) then coreMessage q a
      else if ((65.0 ≤ a ∧ a ≤ 75.0) ∧ 42.5 < q ∧ q < 56.0) ∨
          ((25.0 ≤ q ∧ q ≤ 42.5) ∧ 75.0 < a ∧ a ≤ 78.0) ∨
          ((42.5 < q ∧ q ≤ 44.0) ∧ (65.0 ≤ a ∧ a ≤ 75.0)) then
        (if (65.0 ≤ a ∧ a ≤ 75.0) ∧ 42.5 < q ∧ q < 56.0 then suspectAMessage
          else if (25.0 ≤ q ∧ q ≤ 42.5) ∧ 75.0 < a ∧ a ≤ 78.0 then suspectBMessage
          else suspectCMessage)
      else noneMessage q a)) ∧
    (levelToVerdict "core" = "falsified" ∧ levelToVerdict "suspect" = "suspect" ∧
      levelToVerdict "none" = "valid") := by
  have hq : in_q_core q ↔ (25.0 ≤ q ∧ q ≤ 42.5) := Iff.rfl
  have ha : in_a_core a ↔ (65.0 ≤ a ∧ a ≤ 75.0) := Iff.rfl
  have hA : suspectA q a ↔ ((65.0 ≤ a ∧ a ≤ 75.0) ∧ 42.5 < q ∧ q < 56.0) := Iff.rfl
  have hB : suspectB q a ↔ ((25.0 ≤ q ∧ q ≤ 42.5) ∧ 75.0 < a ∧ a ≤ 78.0) := Iff.rfl
  have hC : suspectC q a ↔ ((42.5 < q ∧ q ≤ 44.0) ∧ (65.0 ≤ a ∧ a ≤ 75.0)) := Iff.rfl
  rw [build_rescan_json_rescan]
  simp only [hq, ha, hA, hB, hC]
  by_cases h1 : (25.0 ≤ q ∧ q ≤ 42.5) ∧ (65.0 ≤ a ∧ a ≤ 75.0)
  · rw [if_pos h1, if_pos h1]
    exact ⟨iff_of_true rfl h1,
      iff_of_false (by decide : ¬("core" : String) = "suspect") (fun hh => hh.1 h1),
      iff_of_false (by decide : ¬("core" : String) = "none") (fun hh => hh.1 h1),
      rfl, by decide, by decide, by decide⟩
  · by_cases h2 : ((65.0 ≤ a ∧ a ≤ 75.0) ∧ 42.5 < q ∧ q < 56.0) ∨
        ((25.0 ≤ q ∧ q ≤ 42.5) ∧ 75.0 < a ∧ a ≤ 78.0) ∨
        ((42.5 < q ∧ q ≤ 44.0) ∧ (65.0 ≤ a ∧ a ≤ 75.0))
    · rw [if_neg h1, if_neg h1, if_pos h2, if_pos h2]
      exact ⟨iff_of_false (by decide : ¬("suspect" : String) = "core") h1,
        iff_of_true rfl ⟨h1, h2⟩,
        iff_of_false (by decide : ¬("suspect" : String) = "none") (fun hh => hh.2 h2),
        rfl, by decide, by decide, by decide⟩
    · rw [if_neg h1, if_neg h1, if_neg h2, if_neg h2]
      exact ⟨iff_of_false (by decide : ¬("none" : String) = "core") h1,
        iff_of_false (by decide : ¬("none" : String) = "suspect") (fun hh => h2 hh.2),
        iff_of_true rfl ⟨h1, h2⟩, rfl, by decide, by decide, by decide⟩

/-! ## Claim C2: score bounds -/

/-- C2 counterexample: the entropy term of the quality score is scaled but not
clamped, so a measurement with entropy 16 and every other quality field at its
cap (all fields finite and non-negative) yields a quality score of 120,
exceeding 100. -/
theorem quality_score_exceeds_100 :
    calculate_quality_score ⟨1000, 16, 0, 100, 0, 1000⟩ = 120 ∧
    ¬(calculate_quality_score ⟨1000, 16, 0, 100, 0, 1000⟩ ≤ 100) := by
  constructor <;> norm_num [calculate_quality_score, min_def, max_def]

/-- C2 (amended): for non-negative measurements, both scores are non-negative,
the artifact score is at most 100 unconditionally, and the quality score is at
most 100 whenever entropy ≤ 8: every term except the entropy term is clamped
to its contribution ceiling before weighting, while the entropy term
contributes entropy/8 · 20 unclamped. -/
theorem scores_bounded (m : QualityMetrics) (am : ArtifactMetrics)
    (hlap : 0 ≤ m.laplacian_variance) (hent : 0 ≤ m.entropy)
    (hnoise : 0 ≤ m.noise_estimate) (hcon : 0 ≤ m.rms_contrast)
    (hhf : 0 ≤ m.high_frequency_content)
    (hhalf : 0 ≤ am.halftone_score) (hedge : 0 ≤ am.edge_irregularity)
    (hcomp : 0 ≤ am.compression_artifacts) (hgrid : 0 ≤ am.grid_pattern_score) :
    (0 ≤ calculate_quality_score m ∧
      (m.entropy ≤ 8 → calculate_quality_score m ≤ 100)) ∧
    (0 ≤ calculate_artifact_score am ∧ calculate_artifact_score am ≤ 100) := by
  have t1 : 0 ≤ min (m.laplacian_variance / 1000) 1 :=
    le_min (by positivity) zero_le_one
  have t1' : min (m.laplacian_variance / 1000) 1 ≤ 1 := min_le_right _ _
  have t2 : 0 ≤ min (m.rms_contrast / 100) 1 := le_min (by positivity) zero_le_one
  have t2' : min (m.rms_contrast / 100) 1 ≤ 1 := min_le_right _ _
  have t3 : 0 ≤ max 0 (1 - m.noise_estimate / 50) := le_max_left _ _
  have t3' : max 0 (1 - m.noise_estimate / 50) ≤ 1 := by
    have : 0 ≤ m.noise_estimate / 50 := by positivity
    apply max_le <;> linarith
  have t4 : 0 ≤ min (m.high_frequency_content / 1000) 1 :=
    le_min (by positivity) zero_le_one
  have t4' : min (m.high_frequency_content / 1000) 1 ≤ 1 := min_le_right _ _
  have u1 : 0 ≤ min (am.halftone_score / 10) 1 := le_min (by positivity) zero_le_one
  have u1' : min (am.halftone_score / 10) 1 ≤ 1 := min_le_right _ _
  have u2 : 0 ≤ min am.edge_irregularity 1 := le_min hedge zero_le_one
  have u2' : min am.edge_irregularity 1 ≤ 1 := min_le_right _ _
  have u3 : 0 ≤ min (am.compression_artifacts / 5) 1 :=
    le_min (by positivity) zero_le_one
  have u3' : min (am.compression_artifacts / 5) 1 ≤ 1 := min_le_right _ _
  have u4 : 0 ≤ min (am.grid_pattern_score * 1000) 1 :=
    le_min (by positivity) zero_le_one
  have u4' : min (am.grid_pattern_score * 1000) 1 ≤ 1 := min_le_right _ _
  unfold calculate_quality_score calculate_artifact_score
  refine ⟨⟨by linarith, fun h8 => by linarith⟩, by linarith, by linarith⟩

/-- C2 witness: the amended bound applied at the all-zero measurement. -/
theorem scores_bounded_witness :
    (0 ≤ calculate_quality_score ⟨0, 0, 0, 0, 0, 0⟩ ∧
      ((⟨0, 0, 0, 0, 0, 0⟩ : QualityMetrics).entropy ≤ 8 →
        calculate_quality_score ⟨0, 0, 0, 0, 0, 0⟩ ≤ 100)) ∧
    (0 ≤ calculate_artifact_score ⟨0, 0, 0, 0⟩ ∧
      calculate_artifact_score ⟨0, 0, 0, 0⟩ ≤ 100) :=
  scores_bounded ⟨0, 0, 0, 0, 0, 0⟩ ⟨0, 0, 0, 0⟩ le_rfl le_rfl le_rfl le_rfl le_rfl
    le_rfl le_rfl le_rfl le_rfl

/-! ## Claim C3: the date-comparison fallback -/

/-- C3 counterexample: revision tool unavailable, filesystem timestamps 10 and
100 (differing by 90 s, beyond the 1-second tolerance): the fallback reports
`rewrites = 1` and the pipeline records the revision verdict `falsified` —
a conclusive verdict, contradicting the claim that it is never `falsified`. -/
theorem revision_date_mismatch_goes_falsified :
    (analyze_pdf_complete "doc.pdf" ⟨false, true, .ok ""⟩
        ⟨true, .ok (10, 100), false, false, none, none⟩ =
      .ok ⟨false, 1, "dates_filesystem",
        "Réécriture détectée (dates de création/modification différentes)."⟩) ∧
    ((runMain "doc.pdf" ⟨⟨false, true, .ok ""⟩,
        ⟨true, .ok (10, 100), false, false, none, none⟩,
        .ok ⟨true, "m", "valid", "doc.pdf", "high"⟩, .scores 50 20⟩).report.revision =
      some ⟨"falsified",
        "Réécriture détectée (dates de création/modification différentes)."⟩) ∧
    ((runMain "doc.pdf" ⟨⟨false, true, .ok ""⟩,
        ⟨true, .ok (10, 100), false, false, none, none⟩,
        .ok ⟨true, "m", "valid", "doc.pdf", "high"⟩, .scores 50 20⟩).ranMetadata =
      false) := by
  have habs : ¬(|(10 : ℚ) - 100| ≤ 1) := by norm_num [abs_le]
  have hdates : analyze_with_dates "doc.pdf"
      ⟨true, .ok (10, 100), false, false, none, none⟩ =
      .ok (datesRewriteDict "filesystem") := by
    simp [analyze_with_dates, pyTruthy, habs]
  have hcomplete : analyze_pdf_complete "doc.pdf" ⟨false, true, .ok ""⟩
      ⟨true, .ok (10, 100), false, false, none, none⟩ =
      .ok (datesRewriteDict "filesystem") := by
    simp [analyze_pdf_complete, analyze_with_pdfresurrect, hdates]
  refine ⟨hcomplete, ?_, ?_⟩
  · rw [runMain_rewrites_pos "doc.pdf"
      ⟨⟨false, true, .ok ""⟩, ⟨true, .ok (10, 100), false, false, none, none⟩,
        .ok ⟨true, "m", "valid", "doc.pdf", "high"⟩, .scores 50 20⟩
      (datesRewriteDict "filesystem") hcomplete (by decide)]
    rfl
  · rw [runMain_rewrites_pos "doc.pdf"
      ⟨⟨false, true, .ok ""⟩, ⟨true, .ok (10, 100), false, false, none, none⟩,
        .ok ⟨true, "m", "valid", "doc.pdf", "high"⟩, .scores 50 20⟩
      (datesRewriteDict "filesystem") hcomplete (by decide)]

/-- C3 (amended): when the date-comparison fallback runs and the compared
timestamps differ (beyond the 1-second tolerance for filesystem dates, exact
inequality for PDF metadata dates), the signal reports `rewrites = 1`, which
the pipeline maps to the conclusive revision verdict `falsified` with an
immediate short-circuit; only equal timestamps yield verdict `valid`. -/
theorem revision_date_fallback_behavior (path : String) (ctime mtime : ℚ)
    (pa ro : Bool) (cd md : Option String)
    (hnopdf : pa = false ∨ ro = false ∨ cd = none ∨ md = none) :
    (¬(|ctime - mtime| ≤ 1) →
      analyze_with_dates path ⟨true, .ok (ctime, mtime), pa, ro, cd, md⟩ =
        .ok (datesRewriteDict "filesystem")) ∧
    (|ctime - mtime| ≤ 1 →
      analyze_with_dates path ⟨true, .ok (ctime, mtime), pa, ro, cd, md⟩ =
        .ok (datesValidDict "filesystem")) ∧
    (∀ s t : String, s ≠ "" → t ≠ "" → s ≠ t →
      analyze_with_dates path ⟨true, .ok (ctime, mtime), true, true, some s, some t⟩ =
        .ok (datesRewriteDict "pdf_metadata")) ∧
    (datesRewriteDict "filesystem").rewrites = 1 ∧
    (datesRewriteDict "pdf_metadata").rewrites = 1 ∧
    (∀ (env : MainEnv) (d : RevDict),
      analyze_pdf_complete path env.resEnv env.datesEnv = .ok d → 0 < d.rewrites →
      (runMain path env).report.revision = some ⟨"falsified", d.message⟩ ∧
      (runMain path env).report.overall.verdict = "falsified" ∧
      (runMain path env).ranMetadata = false) ∧
    (∀ (env : MainEnv) (d : RevDict),
      analyze_pdf_complete path env.resEnv env.datesEnv = .ok d → d.rewrites = 0 →
      (runMain path env).report.revision = some ⟨"valid", d.message⟩) := by
  refine ⟨?_, ?_, ?_, rfl, rfl, ?_, ?_⟩
  · intro h
    rcases hnopdf with hh | hh | hh | hh <;> subst hh <;>
      simp [analyze_with_dates, pyTruthy, h]
  · intro h
    rcases hnopdf with hh | hh | hh | hh <;> subst hh <;>
      simp [analyze_with_dates, pyTruthy, h]
  · intro s t hs ht hst
    simp [analyze_with_dates, pyTruthy, hs, ht, hst]
  · intro env d h hr
    rw [runMain_rewrites_pos path env d h hr]
    refine ⟨rfl, ?_, rfl⟩
    show (updateOverall initOverall "falsified" d.message).verdict = "falsified"
    rw [updateOverall_verdict, if_pos (by decide)]
    decide
  · intro env d h hr
    rw [runMain_rewrites_zero path env d h hr, runMetadataStep_revision]

/-- C3 witness: the amended behavior at concrete inputs — timestamps 10 and
100 produce the rewrite dictionary, timestamps 10 and 10.5 the valid one. -/
theorem revision_date_fallback_behavior_witness :
    (analyze_with_dates "doc.pdf" ⟨true, .ok (10, 100), false, false, none, none⟩ =
      .ok (datesRewriteDict "filesystem")) ∧
    (analyze_with_dates "doc.pdf" ⟨true, .ok (10, 10.5), false, false, none, none⟩ =
      .ok (datesValidDict "filesystem")) ∧
    ((runMain "doc.pdf" ⟨⟨false, true, .ok ""⟩,
        ⟨true, .ok (10, 100), false, false, none, none⟩,
        .ok ⟨true, "m", "valid", "doc.pdf", "high"⟩, .scores 50 20⟩).report.revision =
      some ⟨"falsified",
        "Réécriture détectée (dates de création/modification différentes)."⟩) := by
  have h1 := (revision_date_fallback_behavior "doc.pdf" 10 100 false false none none
    (Or.inl rfl)).1 (by norm_num [abs_le])
  have h2 := (revision_date_fallback_behavior "doc.pdf" 10 10.5 false false none none
    (Or.inl rfl)).2.1 (by norm_num [abs_le])
  have hcomplete : analyze_pdf_complete "doc.pdf" ⟨false, true, .ok ""⟩
      ⟨true, .ok (10, 100), false, false, none, none⟩ =
      .ok (datesRewriteDict "filesystem") := by
    simp [analyze_pdf_complete, analyze_with_pdfresurrect, h1]
  have h3 := ((revision_date_fallback_behavior "doc.pdf" 10 100 false false none none
    (Or.inl rfl)).2.2.2.2.2.1
    ⟨⟨false, true, .ok ""⟩, ⟨true, .ok (10, 100), false, false, none, none⟩,
      .ok ⟨true, "m", "valid", "doc.pdf", "high"⟩, .scores 50 20⟩
    (datesRewriteDict "filesystem") hcomplete (by decide)).1
  exact ⟨h1, h2, h3⟩

/-! ## Claim C5: short-circuit on a falsified revision signal -/

/-- C5 counterexample: on a short-circuited run (pdfresurrect reports 3
versions, so `rewrites = 2`) the emitted report still serializes the
`criteria` key — as the empty dictionary created at initialization — rather
than omitting it as the claim states. -/
theorem short_circuit_criteria_key_present :
    ("criteria" ∈ reportJsonKeys (runMain "doc.pdf"
      ⟨⟨true, true, .ok "doc.pdf: 3"⟩, ⟨true, .ok (0, 0), false, false, none, none⟩,
        .ok ⟨true, "m", "valid", "doc.pdf", "high"⟩, .scores 50 20⟩).report) ∧
    ((runMain "doc.pdf"
      ⟨⟨true, true, .ok "doc.pdf: 3"⟩, ⟨true, .ok (0, 0), false, false, none, none⟩,
        .ok ⟨true, "m", "valid", "doc.pdf", "high"⟩, .scores 50 20⟩).report.criteriaRescan
      = none) ∧
    ((runMain "doc.pdf"
      ⟨⟨true, true, .ok "doc.pdf: 3"⟩, ⟨true, .ok (0, 0), false, false, none, none⟩,
        .ok ⟨true, "m", "valid", "doc.pdf", "high"⟩, .scores 50 20⟩).report.overall.verdict
      = "falsified") := by
  have hres : analyze_with_pdfresurrect "doc.pdf" ⟨true, true, .ok "doc.pdf: 3"⟩ =
      .ok (some ⟨false, 2, "pdfresurrect", "2 réécritures détectées (pdfresurrect)."⟩) := rfl
  have hcomplete : analyze_pdf_complete "doc.pdf" ⟨true, true, .ok "doc.pdf: 3"⟩
      ⟨true, .ok (0, 0), false, false, none, none⟩ =
      .ok ⟨false, 2, "pdfresurrect", "2 réécritures détectées (pdfresurrect)."⟩ := by
    simp [analyze_pdf_complete, hres]
  rw [runMain_rewrites_pos "doc.pdf"
    ⟨⟨true, true, .ok "doc.pdf: 3"⟩, ⟨true, .ok (0, 0), false, false, none, none⟩,
      .ok ⟨true, "m", "valid", "doc.pdf", "high"⟩, .scores 50 20⟩
    ⟨false, 2, "pdfresurrect", "2 réécritures détectées (pdfresurrect)."⟩
    hcomplete (by decide)]
  refine ⟨by simp [reportJsonKeys], rfl, ?_⟩
  show (updateOverall initOverall "falsified" _).verdict = "falsified"
  rw [updateOverall_verdict, if_pos (by decide)]
  decide

/-- C5 (amended): when the revision signal yields a positive rewrite count the
pipeline short-circuits — overall verdict `falsified`, exit code 0, the
metadata and rescan signals never run, and the `criteria` entry of the
emitted report is the empty dictionary created at initialization (the
`criteria` key itself is still serialized, not absent). -/
theorem revision_falsified_short_circuit (path : String) (env : MainEnv)
    (d : RevDict)
    (h : analyze_pdf_complete path env.resEnv env.datesEnv = .ok d)
    (hr : 0 < d.rewrites) :
    (runMain path env).report.overall.verdict = "falsified" ∧
    (runMain path env).exitCode = 0 ∧
    (runMain path env).ranMetadata = false ∧
    (runMain path env).ranRescan = false ∧
    (runMain path env).report.criteriaRescan = none ∧
    "criteria" ∈ reportJsonKeys (runMain path env).report := by
  rw [runMain_rewrites_pos path env d h hr]
  refine ⟨?_, rfl, rfl, rfl, rfl, by simp [reportJsonKeys]⟩
  show (updateOverall initOverall "falsified" d.message).verdict = "falsified"
  rw [updateOverall_verdict, if_pos (by decide)]
  decide

/-- C5 witness: the short-circuit behavior at the 3-versions environment. -/
theorem revision_falsified_short_circuit_witness :
    ((runMain "doc.pdf"
      ⟨⟨true, true, .ok "doc.pdf: 3"⟩, ⟨true, .ok (0, 0), false, false, none, none⟩,
        .ok ⟨true, "m", "valid", "doc.pdf", "high"⟩, .scores 50 20⟩).report.overall.verdict
      = "falsified") ∧
    ((runMain "doc.pdf"
      ⟨⟨true, true, .ok "doc.pdf: 3"⟩, ⟨true, .ok (0, 0), false, false, none, none⟩,
        .ok ⟨true, "m", "valid", "doc.pdf", "high"⟩, .scores 50 20⟩).ranMetadata
      = false) ∧
    ((runMain "doc.pdf"
      ⟨⟨true, true, .ok "doc.pdf: 3"⟩, ⟨true, .ok (0, 0), false, false, none, none⟩,
        .ok ⟨true, "m", "valid", "doc.pdf", "high"⟩, .scores 50 20⟩).ranRescan
      = false) := by
  have hres : analyze_with_pdfresurrect "doc.pdf" ⟨true, true, .ok "doc.pdf: 3"⟩ =
      .ok (some ⟨false, 2, "pdfresurrect", "2 réécritures détectées (pdfresurrect)."⟩) := rfl
  have hcomplete : analyze_pdf_complete "doc.pdf" ⟨true, true, .ok "doc.pdf: 3"⟩
      ⟨true, .ok (0, 0), false, false, none, none⟩ =
      .ok ⟨false, 2, "pdfresurrect", "2 réécritures détectées (pdfresurrect)."⟩ := by
    simp [analyze_pdf_complete, hres]
  have h := revision_falsified_short_circuit "doc.pdf"
    ⟨⟨true, true, .ok "doc.pdf: 3"⟩, ⟨true, .ok (0, 0), false, false, none, none⟩,
      .ok ⟨true, "m", "valid", "doc.pdf", "high"⟩, .scores 50 20⟩
    ⟨false, 2, "pdfresurrect", "2 réécritures détectées (pdfresurrect)."⟩
    hcomplete (by decide)
  exact ⟨h.1, h.2.2.1, h.2.2.2.1⟩

/-! ## Claim C6: exceptions inside the revision analysis -/

/-- C6 counterexample: an exception raised while reading the filesystem dates
(`os.stat` raising `OSError('boom')`, revision tool unavailable) is caught and
converted to a `rewrites = 0` dictionary, and the pipeline then records the
revision signal as verdict `valid` — not `unknown` — with the exception
description in the message. -/
theorem revision_exception_recorded_valid :
    ((runMain "doc.pdf" ⟨⟨false, true, .ok ""⟩,
        ⟨true, .exc ⟨"OSError", "boom"⟩, false, false, none, none⟩,
        .ok ⟨true, "m", "valid", "doc.pdf", "high"⟩, .errorKey "x"⟩).report.revision =
      some ⟨"valid", "Erreur lors de l'analyse des dates: boom"⟩) ∧
    (((runMain "doc.pdf" ⟨⟨false, true, .ok ""⟩,
        ⟨true, .exc ⟨"OSError", "boom"⟩, false, false, none, none⟩,
        .ok ⟨true, "m", "valid", "doc.pdf", "high"⟩, .errorKey "x"⟩).report.revision).map
        SigEntry.verdict ≠ some "unknown") := by
  have hdates : analyze_with_dates "doc.pdf"
      ⟨true, .exc ⟨"OSError", "boom"⟩, false, false, none, none⟩ =
      .ok ⟨false, 0, "dates_error", "Erreur lors de l'analyse des dates: boom"⟩ := rfl
  have hcomplete : analyze_pdf_complete "doc.pdf" ⟨false, true, .ok ""⟩
      ⟨true, .exc ⟨"OSError", "boom"⟩, false, false, none, none⟩ =
      .ok ⟨false, 0, "dates_error", "Erreur lors de l'analyse des dates: boom"⟩ := by
    simp [analyze_pdf_complete, analyze_with_pdfresurrect, hdates]
  have hrev : (runMain "doc.pdf" ⟨⟨false, true, .ok ""⟩,
      ⟨true, .exc ⟨"OSError", "boom"⟩, false, false, none, none⟩,
      .ok ⟨true, "m", "valid", "doc.pdf", "high"⟩, .errorKey "x"⟩).report.revision =
      some ⟨"valid", "Erreur lors de l'analyse des dates: boom"⟩ := by
    rw [runMain_rewrites_zero "doc.pdf"
      ⟨⟨false, true, .ok ""⟩, ⟨true, .exc ⟨"OSError", "boom"⟩, false, false, none, none⟩,
        .ok ⟨true, "m", "valid", "doc.pdf", "high"⟩, .errorKey "x"⟩
      ⟨false, 0, "dates_error", "Erreur lors de l'analyse des dates: boom"⟩
      hcomplete rfl, runMetadataStep_revision]
  refine ⟨hrev, ?_⟩
  rw [hrev]
  decide

/-- C6 (amended): an unexpected exception in either revision path is caught
and converted to a `rewrites = 0` dictionary carrying the exception
description in its message, so nothing propagates out of
`analyze_pdf_complete` on these paths; the pipeline then records the revision
signal with verdict `valid` (not `unknown`), keeping the exception message. -/
theorem revision_exception_handling (path : String) :
    (∀ (e : PyExc) (re : ResurrectEnv) (de : DatesEnv),
      re.toolAvailable = true → re.fileExists = true → re.callOutcome = .exc e →
      analyze_pdf_complete path re de =
        .ok ⟨false, 0, "error", "Erreur lors de l'analyse: " ++
          ("Erreur lors de l'exécution de pdfresurrect: " ++ e.msg)⟩) ∧
    (∀ (e : PyExc) (de : DatesEnv),
      de.fileExists = true → de.statOutcome = .exc e →
      analyze_with_dates path de =
        .ok ⟨false, 0, "dates_error", "Erreur lors de l'analyse des dates: " ++ e.msg⟩) ∧
    (∀ e : PyExc,
      strContains ("Erreur lors de l'analyse des dates: " ++ e.msg) e.msg = true) ∧
    (∀ (env : MainEnv) (d : RevDict),
      analyze_pdf_complete path env.resEnv env.datesEnv = .ok d → d.rewrites = 0 →
      (runMain path env).report.revision = some ⟨"valid", d.message⟩) := by
  refine ⟨?_, ?_, ?_, ?_⟩
  · intro e re de hta hfe hco
    obtain ⟨ta, fe, co⟩ := re
    simp only at hta hfe hco
    subst hta; subst hfe; subst hco
    simp [analyze_pdf_complete, analyze_with_pdfresurrect, pyStr, revErrorDict]
  · intro e de hfe hso
    obtain ⟨fe, so, pa, ro, cd, md⟩ := de
    simp only at hfe hso
    subst hfe; subst hso
    simp [analyze_with_dates, pyStr]
  · intro e
    unfold strContains
    apply decide_eq_true
    rw [String.data_append]
    exact (List.suffix_append _ _).isInfix
  · intro env d h hr
    rw [runMain_rewrites_zero path env d h hr, runMetadataStep_revision]

/-- C6 witness: the amended behavior at a concrete `OSError('boom')` raised by
`os.stat`, with the revision tool unavailable. -/
theorem revision_exception_handling_witness :
    (analyze_with_dates "doc.pdf"
        ⟨true, .exc ⟨"OSError", "boom"⟩, false, false, none, none⟩ =
      .ok ⟨false, 0, "dates_error",
        "Erreur lors de l'analyse des dates: " ++ "boom"⟩) ∧
    (analyze_pdf_complete "doc.pdf" ⟨true, true, .exc ⟨"OSError", "boom"⟩⟩
        ⟨true, .ok (0, 0), false, false, none, none⟩ =
      .ok ⟨false, 0, "error", "Erreur lors de l'analyse: " ++
        ("Erreur lors de l'exécution de pdfresurrect: " ++ "boom")⟩) ∧
    strContains ("Erreur lors de l'analyse des dates: " ++ "boom") "boom" = true := by
  refine ⟨(revision_exception_handling "doc.pdf").2.1 ⟨"OSError", "boom"⟩
      ⟨true, .exc ⟨"OSError", "boom"⟩, false, false, none, none⟩ rfl rfl,
    (revision_exception_handling "doc.pdf").1 ⟨"OSError", "boom"⟩
      ⟨true, true, .exc ⟨"OSError", "boom"⟩⟩
      ⟨true, .ok (0, 0), false, false, none, none⟩ rfl rfl rfl,
    (revision_exception_handling "doc.pdf").2.2.1 ⟨"OSError", "boom"⟩⟩

theorem is_in_blacklist_true_iff (c p : String) (bl : List String) :
    (is_in_blacklist c p bl).1 = true ↔
      ∃ item ∈ bl, strContains (pyLower (c ++ " " ++ p)) (pyLower item) = true := by
  unfold is_in_blacklist
  cases hfind : bl.find? (fun item => strContains (pyLower (c ++ " " ++ p)) (pyLower item)) with
  | none =>
      simp only [hfind]
      constructor
      · intro h; exact absurd h (by decide)
      · rintro ⟨item, hmem, hc⟩
        have := List.find?_eq_none.mp hfind item hmem
        simp [hc] at this
  | some item =>
      have hp := List.find?_some hfind
      have hm := List.mem_of_find?_eq_some hfind
      simp only [hfind]
      constructor
      · intro _
        exact ⟨item, hm, hp⟩
      · intro _
        trivial

/-! ## Claim C7: the metadata signal -/

/-- C7 counterexample: when both metadata-extraction backends raise, the
exceptions are swallowed inside `extract_metadata_pypdf` / `extract_metadata_fitz`
(`except Exception: pass`), all fields come back empty, and the signal reports
verdict `valid` — the pipeline then records `valid` and continues to the
rescan signal, instead of surfacing `invalid`. -/
theorem metadata_extraction_exception_swallowed :
    (validate_scan_document "doc.pdf"
        ⟨true, .exc ⟨"OSError", "io"⟩, true, .exc ⟨"OSError", "io"⟩⟩ =
      ⟨true, "Document valide : aucune application suspecte détectée", "valid",
        "doc.pdf", "high"⟩) ∧
    ((runMain "doc.pdf" ⟨⟨false, true, .ok ""⟩,
        ⟨true, .ok (0, 1), false, false, none, none⟩,
        .ok (validate_scan_document "doc.pdf"
          ⟨true, .exc ⟨"OSError", "io"⟩, true, .exc ⟨"OSError", "io"⟩⟩),
        .scores 50 20⟩).report.metadata =
      some ⟨"valid", "Document valide : aucune application suspecte détectée"⟩) ∧
    ((runMain "doc.pdf" ⟨⟨false, true, .ok ""⟩,
        ⟨true, .ok (0, 1), false, false, none, none⟩,
        .ok (validate_scan_document "doc.pdf"
          ⟨true, .exc ⟨"OSError", "io"⟩, true, .exc ⟨"OSError", "io"⟩⟩),
        .scores 50 20⟩).ranRescan = true) := by
  have hval : validate_scan_document "doc.pdf"
      ⟨true, .exc ⟨"OSError", "io"⟩, true, .exc ⟨"OSError", "io"⟩⟩ =
      ⟨true, "Document valide : aucune application suspecte détectée", "valid",
        "doc.pdf", "high"⟩ := by decide
  have habs : |(0 : ℚ) - 1| ≤ 1 := by norm_num
  have hdates : analyze_with_dates "doc.pdf"
      ⟨true, .ok (0, 1), false, false, none, none⟩ =
      .ok (datesValidDict "filesystem") := by
    simp [analyze_with_dates, pyTruthy, habs]
  have hcomplete : analyze_pdf_complete "doc.pdf" ⟨false, true, .ok ""⟩
      ⟨true, .ok (0, 1), false, false, none, none⟩ =
      .ok (datesValidDict "filesystem") := by
    simp [analyze_pdf_complete, analyze_with_pdfresurrect, hdates]
  have hmain : runMain "doc.pdf" ⟨⟨false, true, .ok ""⟩,
      ⟨true, .ok (0, 1), false, false, none, none⟩,
      .ok (validate_scan_document "doc.pdf"
        ⟨true, .exc ⟨"OSError", "io"⟩, true, .exc ⟨"OSError", "io"⟩⟩),
      .scores 50 20⟩ =
      runRescanStep "doc.pdf"
        ⟨⟨false, true, .ok ""⟩, ⟨true, .ok (0, 1), false, false, none, none⟩,
          .ok (validate_scan_document "doc.pdf"
            ⟨true, .exc ⟨"OSError", "io"⟩, true, .exc ⟨"OSError", "io"⟩⟩),
          .scores 50 20⟩
        { documentPath := "doc.pdf", documentType := "scan",
          revision := some ⟨"valid", (datesValidDict "filesystem").message⟩,
          metadata := some ⟨normVerdict "valid",
            "Document valide : aucune application suspecte détectée"⟩,
          criteriaRescan := none,
          overall := updateOverall
            (updateOverall initOverall "valid" (datesValidDict "filesystem").message)
            (normVerdict "valid")
            "Document valide : aucune application suspecte détectée" } := by
    rw [runMain_rewrites_zero "doc.pdf" _ (datesValidDict "filesystem") hcomplete rfl,
      runMetadataStep_ok_go "doc.pdf" _ _
        ⟨true, "Document valide : aucune application suspecte détectée", "valid",
          "doc.pdf", "high"⟩
        (congrArg PyResult.ok hval) (by decide)]
  refine ⟨hval, ?_, ?_⟩
  · rw [hmain, runRescanStep_metadata]
    decide
  · rw [hmain, runRescanStep_ranRescan]

/-- C7 (amended): the metadata signal lower-cases and concatenates creator and
producer and substring-searches the fixed blacklist — first match yields
`falsified` naming the application, confidence `high`; no match yields `valid`,
confidence `high`. A pipeline-level exception from the metadata signal is
recorded as `invalid` with immediate emission; however, exceptions inside the
two extraction backends are swallowed there (yielding empty fields, hence
verdict `valid`), so an extraction failure does not surface as `invalid`. -/
theorem metadata_signal_behavior (path : String) :
    (∀ env : MdEnv,
      ((validate_scan_document path env).verdict = "falsified" ↔
        ∃ item ∈ SCAN_BLACKLIST,
          strContains (pyLower ((extract_all_metadata env).creator ++ " " ++
            (extract_all_metadata env).producer)) (pyLower item) = true) ∧
      ((validate_scan_document path env).verdict = "falsified" ∨
        (validate_scan_document path env).verdict = "valid") ∧
      (validate_scan_document path env).confidence = "high" ∧
      (∀ item : String,
        is_in_blacklist (extract_all_metadata env).creator
          (extract_all_metadata env).producer SCAN_BLACKLIST = (true, item) →
        (validate_scan_document path env).message =
          "Document falsifié : application interdite détectée (" ++ item ++ ")") ∧
      ((is_in_blacklist (extract_all_metadata env).creator
          (extract_all_metadata env).producer SCAN_BLACKLIST).1 = false →
        (validate_scan_document path env).message =
          "Document valide : aucune application suspecte détectée")) ∧
    (∀ e1 e2 : PyExc,
      validate_scan_document path ⟨true, .exc e1, true, .exc e2⟩ =
        ⟨true, "Document valide : aucune application suspecte détectée", "valid",
          path, "high"⟩) ∧
    (∀ (env : MainEnv) (e : PyExc) (d : RevDict),
      env.mdOutcome = .exc e →
      analyze_pdf_complete path env.resEnv env.datesEnv = .ok d → d.rewrites = 0 →
      (runMain path env).report.metadata =
        some ⟨"invalid", "Erreur analyse métadonnées: " ++ pyRepr e⟩ ∧
      (runMain path env).ranRescan = false ∧
      (runMain path env).exitCode = 0) := by
  refine ⟨?_, ?_, ?_⟩
  · intro env
    refine ⟨?_, ?_, ?_, ?_, ?_⟩
    · rw [← is_in_blacklist_true_iff]
      simp only [validate_scan_document]
      split_ifs with hbl
      · exact iff_of_true rfl hbl
      · exact iff_of_false (by decide : ¬("valid" : String) = "falsified") hbl
    · simp only [validate_scan_document]
      split_ifs <;> simp
    · simp only [validate_scan_document]
      split_ifs <;> rfl
    · intro item hitem
      simp only [validate_scan_document, hitem]
      rw [if_pos trivial]
    · intro hbl
      simp only [validate_scan_document]
      split_ifs with h
      · rw [h] at hbl; cases hbl
      · rfl
  · intro e1 e2
    have hempty : extract_all_metadata ⟨true, .exc e1, true, .exc e2⟩ =
        ⟨"", "", "", "", "", ""⟩ := rfl
    have hbl : is_in_blacklist "" "" SCAN_BLACKLIST = (false, "") := by decide
    simp only [validate_scan_document, hempty]
    rw [hbl, if_neg (by decide : ¬(((false, "") : Bool × String).1 = true))]
  · intro env e d hmd h hr
    rw [runMain_rewrites_zero path env d h hr, runMetadataStep_exc path env _ e hmd]
    exact ⟨rfl, rfl, rfl⟩

/-- C7 witness: a Photoshop creator is flagged `falsified`; swallowed
extraction exceptions yield `valid`; a metadata exception at the pipeline
level is recorded as `invalid` and the report is emitted without rescan. -/
theorem metadata_signal_behavior_witness :
    ((validate_scan_document "doc.pdf"
        ⟨true, .ok [("/Creator", "Adobe Photoshop 2024"), ("/Producer", "X")],
          false, .ok []⟩).verdict = "falsified") ∧
    (validate_scan_document "doc.pdf"
        ⟨true, .exc ⟨"OSError", "io"⟩, true, .exc ⟨"OSError", "io"⟩⟩ =
      ⟨true, "Document valide : aucune application suspecte détectée", "valid",
        "doc.pdf", "high"⟩) ∧
    ((runMain "doc.pdf" ⟨⟨false, true, .ok ""⟩,
        ⟨true, .ok (0, 1), false, false, none, none⟩,
        .exc ⟨"OSError", "io"⟩, .scores 50 20⟩).report.metadata =
      some ⟨"invalid", "Erreur analyse métadonnées: " ++ pyRepr ⟨"OSError", "io"⟩⟩) := by
  have habs : |(0 : ℚ) - 1| ≤ 1 := by norm_num
  have hdates : analyze_with_dates "doc.pdf"
      ⟨true, .ok (0, 1), false, false, none, none⟩ =
      .ok (datesValidDict "filesystem") := by
    simp [analyze_with_dates, pyTruthy, habs]
  have hcomplete : analyze_pdf_complete "doc.pdf" ⟨false, true, .ok ""⟩
      ⟨true, .ok (0, 1), false, false, none, none⟩ =
      .ok (datesValidDict "filesystem") := by
    simp [analyze_pdf_complete, analyze_with_pdfresurrect, hdates]
  refine ⟨((metadata_signal_behavior "doc.pdf").1
      ⟨true, .ok [("/Creator", "Adobe Photoshop 2024"), ("/Producer", "X")],
        false, .ok []⟩).1.mpr ⟨"photoshop", by decide, by decide⟩,
    (metadata_signal_behavior "doc.pdf").2.1 ⟨"OSError", "io"⟩ ⟨"OSError", "io"⟩,
    ((metadata_signal_behavior "doc.pdf").2.2
      ⟨⟨false, true, .ok ""⟩, ⟨true, .ok (0, 1), false, false, none, none⟩,
        .exc ⟨"OSError", "io"⟩, .scores 50 20⟩
      ⟨"OSError", "io"⟩ (datesValidDict "filesystem") rfl hcomplete rfl).1⟩

/-! ## Claim C4: severity merge -/

/-- C4: starting from the initial overall report, after any finite sequence of
`_update_overall` calls the priority of the overall verdict equals the maximum
of the priorities of all submitted verdicts (empty maximum read as 0, the
priority of the initial `valid`), and a single call never lowers the
severity. -/
theorem severity_merge_monotone_max :
    (∀ (o : Overall) (v r : String),
        priority o.verdict ≤ priority (updateOverall o v r).verdict) ∧
    (∀ subs : List (String × String),
        priority (applyUpdates initOverall subs).verdict =
          (subs.map (fun p => priority p.1)).foldl max 0) := by
  constructor
  · intro o v r
    rw [updateOverall_priority]
    omega
  · intro subs
    rw [applyUpdates_priority]
    have h0 : priority initOverall.verdict = 0 := by decide
    rw [h0]

/-! ## Claim C8: the reasons list -/

/-- C8 counterexample: a message submitted as the empty string with verdict
`invalid` is dropped by `_update_overall` (the `if reason and …` truthiness
test), whereas the claim's reading of the rule would retain it. -/
theorem reasons_empty_message_dropped :
    (applyUpdates initOverall [("invalid", "")]).reasons = [] ∧
    specNonValidMessages [("invalid", "")] = [""] := by
  constructor
  · decide
  · decide

/-- C8 (amended): the final reasons list contains exactly the non-empty
messages submitted with a non-valid normalized verdict, in submission order;
messages with normalized verdict `valid`, and empty messages, are never
added. -/
theorem reasons_exactly_nonempty_nonvalid (subs : List (String × String)) :
    (applyUpdates initOverall subs).reasons =
      (subs.filter (fun p => p.2 != "" && normVerdict p.1 != "valid")).map Prod.snd := by
  rw [applyUpdates_reasons]
  simp [initOverall]

/-! ## Claim C9: verdict normalization -/

/-- C9: `_norm_verdict` is idempotent, case-insensitive, maps the documented
synonyms to the five canonical values, and maps every string whose
stripped-lowered form is unrecognized to `unknown`. -/
theorem verdict_normalization :
    (∀ v : String, normVerdict (normVerdict v) = normVerdict v) ∧
    (∀ v : String, normVerdict (pyLower v) = normVerdict v) ∧
    (normVerdict "ok" = "valid" ∧ normVerdict "borderline" = "suspect" ∧
      normVerdict "warning" = "suspect" ∧ normVerdict "invalide" = "invalid" ∧
      normVerdict "forged" = "falsified" ∧ normVerdict "OK" = "valid" ∧
      normVerdict " Forged " = "falsified") ∧
    (∀ v : String,
      pyLower (pyStrip v) ∉
          (["valid", "ok", "borderline", "suspect", "warning", "warn",
            "invalid", "invalide", "falsified", "forged"] : List String) →
        normVerdict v = "unknown") := by
  refine ⟨normVerdict_idem, normVerdict_pyLower, ?_, ?_⟩
  · refine ⟨?_, ?_, ?_, ?_, ?_, ?_, ?_⟩ <;> decide
  · intro v h
    simp only [normVerdict]
    split_ifs with h1 h2 h3 h4
    · exact absurd (by rcases h1 with h' | h' <;> simp [h']) h
    · exact absurd (by rcases h2 with h' | h' | h' | h' <;> simp [h']) h
    · exact absurd (by rcases h3 with h' | h' <;> simp [h']) h
    · exact absurd (by rcases h4 with h' | h' <;> simp [h']) h
    · rfl

/-- C9 witness: the unrecognized-input clause applied at a concrete string. -/
theorem verdict_normalization_witness :
    normVerdict "gibberish" = "unknown" :=
  verdict_normalization.2.2.2 "gibberish" (by decide)

/-! ## Claim C10: canonical stored verdicts -/

/-- C10: the initial verdict is `valid`; an update either keeps the stored
verdict or writes the normalized form of the submitted one; hence after any
run the stored overall verdict is one of the five canonical strings. -/
theorem overall_verdict_canonical :
    initOverall.verdict = "valid" ∧
    (∀ (o : Overall) (v r : String),
        (updateOverall o v r).verdict = o.verdict ∨
        (updateOverall o v r).verdict = normVerdict v) ∧
    (∀ subs : List (String × String),
        (applyUpdates initOverall subs).verdict ∈
          (["valid", "suspect", "invalid", "falsified", "unknown"] : List String)) := by
  refine ⟨rfl, ?_, ?_⟩
  · intro o v r
    rw [updateOverall_verdict]
    split_ifs <;> tauto
  · intro subs
    have key : ∀ (subs : List (String × String)) (o : Overall),
        o.verdict ∈ (["valid", "suspect", "invalid", "falsified", "unknown"] : List String) →
        (applyUpdates o subs).verdict ∈
          (["valid", "suspect", "invalid", "falsified", "unknown"] : List String) := by
      intro subs
      induction subs with
      | nil => intro o ho; exact ho
      | cons hd tl ih =>
          intro o ho
          apply ih
          rw [updateOverall_verdict]
          split_ifs with h
          · rcases normVerdict_mem hd.1 with h' | h' | h' | h' | h' <;> simp [h']
          · exact ho
    exact key subs initOverall (by simp [initOverall])

end Diploma
